import Mathlib

/-!
Shallow embedding of the wrpnng transport-bridge core and proofs about it.

The embedding follows the Go source of the repository:
  - internal/processors/stopping/stopping.go  (the short-circuiting chain)
  - internal/sender/sender.go                 (outbound Connection)
  - internal/receiver/receiver.go             (inbound Listener)
  - sendermap.go                              (the routing table / Router)
  - server.go                                 (the Bridge orchestrator)

Machine details that the claims do not touch (byte-level msgpack encoding,
actual sockets) are abstracted exactly where the spec declares them external
collaborators; everything the claims inspect is translated from the source.
-/

/-- Go error values that the core creates or compares against.  Sentinel
errors are atoms; errors.Join of two non-nil errors is the joined form.
The tag constructor stands for any other distinct error value (dial errors,
factory errors, transport send errors, ...). -/
inductive GoError where
  | notHandled
  | invalidLocator
  | connClosed
  | failedToSend
  | invalidMsg
  | canceled
  | recvTimeout
  | tag (n : Nat)
  | joined (a b : GoError)
deriving DecidableEq, Repr

/-- Go errors.Is for sentinel targets: direct equality, or membership in a
join (errors.Join builds a tree that Is unwraps). -/
def GoError.is : GoError → GoError → Bool
  | GoError.joined a b, t =>
    (GoError.joined a b == t) || GoError.is a t || GoError.is b t
  | e, t => e == t

/-- Go errors.Join at the Option level: nil arguments are dropped.  (When
exactly one argument is non-nil Go wraps it in a singleton join; the wrapped
value is Is-equivalent to the bare error and the claims only depend on that,
so we keep the bare error.) -/
def goJoin : Option GoError → Option GoError → Option GoError
  | none, b => b
  | some a, none => some a
  | some a, some b => some (GoError.joined a b)

/-- wrp.MessageType is an integer enumeration in wrp-go. -/
abbrev MessageType := Int

def authorizationMessageType : MessageType := 2

def serviceRegistrationMessageType : MessageType := 9

def serviceAliveMessageType : MessageType := 10

/-- The fields of wrp.Message that the wrpnng core inspects: Type,
Destination (returned by msg.To()), and for registration messages
ServiceName and URL; Status is set on the synthetic authorization message. -/
structure Message where
  type : MessageType
  destination : String
  serviceName : String
  url : String
  status : Option Int
deriving DecidableEq, Repr

/-- Parsed view of a destination locator; the service name is the routing
key (wrp.ParseLocator is an external collaborator). -/
structure Locator where
  service : String
deriving DecidableEq, Repr

/-! ## ProcessorChain: stopping.Processors.ProcessWRP (stopping.go:22-40)

A processor is modelled by its result on a message (nil handlers in the Go
slice are the none entries of the list).  The context is modelled by its
fixed error state: ctx.Err() is nil for a live context and some e once the
context has been cancelled (a cancelled context never becomes live again).
-/

def Processor := Message → Option GoError

/-- True when a processor result err satisfies errors.Is(err, ErrNotHandled);
errors.Is(nil, ErrNotHandled) is false. -/
def notHandledRes : Option GoError → Bool
  | some e => GoError.is e GoError.notHandled
  | none => false

/-- Instrumented translation of stopping.Processors.ProcessWRP: returns the
chain result together with the positions (absolute indices, i is the index
of the head) of the processors actually invoked, in invocation order.  The
index trace is proof-only bookkeeping; the result component is exactly the
Go control flow: per-iteration ctx.Err() check, nil-skip, continue on
ErrNotHandled, stop on anything else, ErrNotHandled when exhausted. -/
def processTrace (ctxErr : Option GoError) (msg : Message) :
    Nat → List (Option Processor) → Option GoError × List Nat
  | _, [] => (some GoError.notHandled, [])
  | i, p :: rest =>
    match ctxErr with
    | some e => (some e, [])
    | none =>
      match p with
      | none => processTrace ctxErr msg (i + 1) rest
      | some proc =>
        let r := proc msg
        if notHandledRes r then
          let t := processTrace ctxErr msg (i + 1) rest
          (t.1, i :: t.2)
        else (r, [i])

/-- stopping.Processors.ProcessWRP itself (result only). -/
def stoppingProcessWRP (ctxErr : Option GoError)
    (procs : List (Option Processor)) (msg : Message) : Option GoError :=
  (processTrace ctxErr msg 0 procs).1

/-- The indexed results of the non-nil processors of the chain, in order:
what each processor would answer for this message. -/
def invocables (msg : Message) :
    Nat → List (Option Processor) → List (Nat × Option GoError)
  | _, [] => []
  | i, none :: rest => invocables msg (i + 1) rest
  | i, some p :: rest => (i, p msg) :: invocables msg (i + 1) rest

/-- Modelled from the spec sentence for the chain: scan the (indexed)
handler results in order; the first result that is not the not-handled
sentinel is returned and nothing later is invoked; if every handler says
not-handled, the chain says not-handled.  The second component lists the
handlers invoked. -/
def firstClaim : List (Nat × Option GoError) → Option GoError × List Nat
  | [] => (some GoError.notHandled, [])
  | (i, r) :: rest =>
    if notHandledRes r then
      let t := firstClaim rest
      (t.1, i :: t.2)
    else (r, [i])

/-- C1: ProcessorChain.ProcessWRP invokes the processors in order, skipping
nil entries; it returns the first result that is not the not-handled
sentinel without invoking any later processor; if every processor returns
the sentinel it returns the sentinel; and with a context already cancelled
it returns the context error immediately, invoking no processor at all. -/
theorem chain_first_match_skip_nil_cancel
    (procs : List (Option Processor)) (msg : Message) :
    (∀ e, procs ≠ [] → processTrace (some e) msg 0 procs = (some e, []))
    ∧ ∀ i, processTrace none msg i procs = firstClaim (invocables msg i procs) := by
  constructor
  · intro e h
    cases procs with
    | nil => exact absurd rfl h
    | cons p rest => rfl
  · intro i
    induction procs generalizing i with
    | nil => rfl
    | cons p rest ih =>
      cases p with
      | none =>
        simpa [processTrace, invocables] using ih (i + 1)
      | some proc =>
        by_cases hr : notHandledRes (proc msg)
        · simp [processTrace, invocables, firstClaim, hr, ih (i + 1)]
        · simp [processTrace, invocables, firstClaim, hr]

def msgW : Message :=
  { type := 3, destination := "", serviceName := "", url := "", status := none }

/-- Witness for C1: on a one-element chain with a cancelled context the
chain returns the context error and invokes nothing. -/
theorem chain_first_match_skip_nil_cancel_witness :
    processTrace (some GoError.canceled) msgW 0 [some fun _ => none]
      = (some GoError.canceled, []) :=
  (chain_first_match_skip_nil_cancel [some fun _ => none] msgW).1
    GoError.canceled (by simp)

/-- C10: on the empty processor list the chain returns the not-handled
sentinel for every message and every context state, including an already
cancelled one: the cancellation check only runs before a handler iteration,
and an empty chain has none. -/
theorem chain_empty_not_handled (ctxErr : Option GoError) (msg : Message) :
    stoppingProcessWRP ctxErr [] msg = some GoError.notHandled := rfl

/-! ## Connection: Sender (sender.go)

One Sender instance is modelled by its connectedness (sock is nil or not);
its public operations are replayed as an event list.  Each event carries
the outcome of the underlying external call:
  - dial res: a Dial() call, res the result dialNewSocket would give
    (sender.go:61-77; the body is skipped entirely when already connected);
  - close: a Close() call (sender.go:107-122, always returns nil);
  - send res: a ProcessWRP call, res the result sock.Send would give
    (sender.go:130-182; when sock is nil it fails with ErrConnClosed,
    a send error tears the connection down and is returned, a successful
    send leaves it connected).  Caller-context races are not exercised by
    these claims, so the caller always sees the send outcome. -/
inductive SenderEv where
  | dial (res : Option GoError)
  | close
  | send (res : Option GoError)
deriving DecidableEq, Repr

/-- One operation on a Sender: from a connectedness state, the returned
error value and the new connectedness. -/
def senderStep (conn : Bool) : SenderEv → Option GoError × Bool
  | SenderEv.dial res =>
    if conn then (none, true)
    else
      match res with
      | none => (none, true)
      | some e => (some e, false)
  | SenderEv.close => (none, false)
  | SenderEv.send res =>
    if conn then
      match res with
      | none => (none, true)
      | some e => (some e, false)
    else (some GoError.connClosed, conn)

/-- Replay a list of operations on a Sender, collecting each call's
returned error and the final connectedness. -/
def senderRun (conn : Bool) : List SenderEv → List (Option GoError) × Bool
  | [] => ([], conn)
  | ev :: rest =>
    let s := senderStep conn ev
    let t := senderRun s.2 rest
    (s.1 :: t.1, t.2)

/-- Counterexample for C4: dial, close, dial again, send.  Every call
succeeds: Dial on a closed Sender re-establishes the connection (the no-op
guard in sender.go:65 only applies while sock is non-nil), so the send
issued after close() returns nil rather than the connection-closed error,
and the instance ends up redialed. -/
theorem sender_permanently_closed_counterexample :
    senderRun false
        [SenderEv.dial none, SenderEv.close, SenderEv.dial none, SenderEv.send none]
      = ([none, none, none, none], true)
    ∧ (senderRun false
        [SenderEv.dial none, SenderEv.close, SenderEv.dial none, SenderEv.send none]).1.getLast?
      ≠ some (some GoError.connClosed) := by decide

/-- True for the Dial events of a Sender run. -/
def isDialEv : SenderEv → Bool
  | SenderEv.dial _ => true
  | _ => false

/-- C4 amended: once a Sender is disconnected (close() was called or a send
failure tore the connection down), then as long as Dial is not called
again, every send fails immediately with the connection-closed error, a
close stays a nil no-op, and the Sender remains unconnected; however Dial
on a closed Sender reconnects it (the idempotence guard applies only while
connected), so the permanence holds only in the absence of further Dial
calls. -/
theorem sender_closed_until_redial (evs : List SenderEv)
    (h : ∀ e ∈ evs, isDialEv e = false) :
    senderRun false evs
      = (evs.map fun e =>
          match e with
          | SenderEv.close => (none : Option GoError)
          | _ => some GoError.connClosed, false)
    ∧ senderStep false (SenderEv.dial none) = (none, true) := by
  refine ⟨?_, rfl⟩
  induction evs with
  | nil => rfl
  | cons e rest ih =>
    have he := h e (List.mem_cons_self e rest)
    have hrest : ∀ x ∈ rest, isDialEv x = false := fun x hx =>
      h x (List.mem_cons_of_mem e hx)
    cases e with
    | dial res => simp [isDialEv] at he
    | close => simp [senderRun, senderStep, ih hrest]
    | send res => simp [senderRun, senderStep, ih hrest]

/-- Witness for C4 amended: from the closed state, a close is a nil no-op
and both a successful-transport send and a failing-transport send return
the connection-closed error; the Sender stays unconnected. -/
theorem sender_closed_until_redial_witness :
    senderRun false
        [SenderEv.close, SenderEv.send none, SenderEv.send (some (GoError.tag 7))]
      = ([none, some GoError.connClosed, some GoError.connClosed], false) := by
  have h := (sender_closed_until_redial
    [SenderEv.close, SenderEv.send none, SenderEv.send (some (GoError.tag 7))]
    (by decide)).1
  simpa using h

/-! ## Listener: Receiver (receiver.go)

The receive loop (receiver.go:123-186) is replayed over the list of
iteration outcomes of its three-way select:
  - cancel: the owning context won (ctx.Err() is context.Canceled from
    then on);
  - frame ok: a frame arrived, ok tells whether msgpack decode succeeds
    (on success the message is dispatched to subscribers, on failure it is
    discarded; the loop continues either way);
  - recvErr e c: sock.Recv returned error e, c tells whether the context
    happened to be cancelled by the time the loop joins the errors; a
    receive-timeout error just loops again, anything else is terminal.
The loop result is the number of dispatched frames and the terminal error
(none when the event list ends with the loop still running). -/
inductive RecvEv where
  | cancel
  | frame (decodeOk : Bool)
  | recvErr (e : GoError) (ctxCancelled : Bool)
deriving DecidableEq, Repr

/-- Translation of Receiver.receive: terminal value errors.Join(err,
ctx.Err()) — on cancellation both operands are context.Canceled. -/
def receiveLoop : List RecvEv → Nat × Option GoError
  | [] => (0, none)
  | RecvEv.cancel :: _ =>
    (0, some (GoError.joined GoError.canceled GoError.canceled))
  | RecvEv.frame ok :: rest =>
    let t := receiveLoop rest
    (if ok then t.1 + 1 else t.1, t.2)
  | RecvEv.recvErr e c :: rest =>
    if GoError.is e GoError.recvTimeout then receiveLoop rest
    else (0, some (if c then GoError.joined e GoError.canceled else e))

/-- Translation of Receiver.wrapper (receiver.go:108-116): the value the
close-subscribers are fired with is exactly the loop's terminal error. -/
def wrapperFired (evs : List RecvEv) : Option GoError :=
  (receiveLoop evs).2

/-- Translation of Receiver.Close (receiver.go:74-84): returns nil
unconditionally; when running it cancels and waits for the loop, when not
running it does nothing.  Components: returned error, new running state,
whether it signalled-and-waited. -/
def receiverClose (running : Bool) : Option GoError × Bool × Bool :=
  (none, false, running)

/-- Counterexample for C3: for a cancellation-induced close, the
close-subscribers are fired with Join(Canceled, Canceled) — not nil as the
claim states — and Close itself returns nil, not the loop's terminal
error. -/
theorem receiver_close_counterexample :
    wrapperFired [RecvEv.recvErr GoError.recvTimeout false, RecvEv.cancel]
        = some (GoError.joined GoError.canceled GoError.canceled)
    ∧ some (GoError.joined GoError.canceled GoError.canceled)
        ≠ (none : Option GoError)
    ∧ (receiverClose true).1 = none := by decide

/-- True for the loop events that keep the receive loop running. -/
def loopsOn : RecvEv → Bool
  | RecvEv.frame _ => true
  | RecvEv.recvErr e _ => GoError.is e GoError.recvTimeout
  | RecvEv.cancel => false

/-- C3 amended: Close on a non-running Receiver is a nil no-op that does
not wait; Close on a running Receiver cancels the loop, waits for it, and
returns nil regardless of the loop's terminal error; the close-subscribers
are fired by the loop's wrapper with the terminal error joined with the
cancellation error, which for a cancellation-induced close is the joined
cancellation error — in particular not nil. -/
theorem receiver_close_semantics (b : Bool) (pre : List RecvEv)
    (h : ∀ e ∈ pre, loopsOn e = true) :
    receiverClose b = (none, false, b)
    ∧ wrapperFired (pre ++ [RecvEv.cancel])
        = some (GoError.joined GoError.canceled GoError.canceled) := by
  refine ⟨rfl, ?_⟩
  induction pre with
  | nil => rfl
  | cons e rest ih =>
    have he := h e (List.mem_cons_self e rest)
    have hrest : ∀ x ∈ rest, loopsOn x = true := fun x hx =>
      h x (List.mem_cons_of_mem e hx)
    cases e with
    | cancel => simp [loopsOn] at he
    | frame ok =>
      simpa [wrapperFired, receiveLoop] using ih hrest
    | recvErr err c =>
      have : GoError.is err GoError.recvTimeout = true := he
      simpa [wrapperFired, receiveLoop, this] using ih hrest

/-- Witness for C3 amended: a running Receiver whose loop saw one decoded
frame and one receive timeout before cancellation: Close returns nil and
the subscribers get the joined cancellation error. -/
theorem receiver_close_semantics_witness :
    receiverClose true = (none, false, true)
    ∧ wrapperFired
        [RecvEv.frame true, RecvEv.recvErr GoError.recvTimeout false, RecvEv.cancel]
        = some (GoError.joined GoError.canceled GoError.canceled) :=
  receiver_close_semantics true
    [RecvEv.frame true, RecvEv.recvErr GoError.recvTimeout false] (by decide)

/-! ## Router: senderMap (sendermap.go)

The routing table is the association list from service name to the id of
the registered sender (Go map iteration order is unspecified; the claims
never depend on an order, the list order stands for one arbitrary order).
Senders are identified by id; each sender's ProcessWRP outcome for a
message is supplied by an environment, and wrp.ParseLocator — an external
collaborator — is supplied as a function. -/

/-- Lookup in an association table (Go map indexing; a missing key gives
the nil sender). -/
def lookupA : List (String × Nat) → String → Option Nat
  | [], _ => none
  | (k, v) :: rest, key => if k = key then some v else lookupA rest key

/-- Translation of senderMap.ProcessWRP (sendermap.go:34-68), instrumented
with the ids of the senders whose ProcessWRP is invoked, in order: a
ServiceAlive message is sent to a snapshot of all senders with every error
discarded and nil returned; otherwise the destination locator is parsed (a
parse error is returned verbatim), the service is looked up, a missing
entry gives ErrNotHandled and a present one the sender's own result. -/
def senderMapProcessWRP (env : Nat → Message → Option GoError)
    (parse : String → Except GoError Locator)
    (tbl : List (String × Nat)) (msg : Message) :
    Option GoError × List Nat :=
  if msg.type = serviceAliveMessageType then
    (none, tbl.map Prod.snd)
  else
    match parse msg.destination with
    | Except.error e => (some e, [])
    | Except.ok dest =>
      match lookupA tbl dest.service with
      | some s => (env s msg, [s])
      | none => (some GoError.notHandled, [])

/-- C5: for a ServiceAlive message, senderMap.ProcessWRP invokes send on
every registered sender of the snapshot (all N of them, N = 0 included),
whatever each send returns (the environment env is arbitrary, so failures
change nothing), and returns nil unconditionally. -/
theorem router_broadcast_all (env : Nat → Message → Option GoError)
    (parse : String → Except GoError Locator)
    (tbl : List (String × Nat)) (msg : Message)
    (h : msg.type = serviceAliveMessageType) :
    senderMapProcessWRP env parse tbl msg = (none, tbl.map Prod.snd) := by
  simp [senderMapProcessWRP, h]

def aliveMsg : Message :=
  { type := serviceAliveMessageType, destination := "", serviceName := "",
    url := "", status := none }

/-- Witness for C5: two registered senders, the first of which fails its
send and a parser that would reject everything: both are invoked and the
broadcast still returns nil. -/
theorem router_broadcast_all_witness :
    senderMapProcessWRP
        (fun i _ => if i = 1 then some (GoError.tag 3) else none)
        (fun _ => Except.error GoError.invalidLocator)
        [("a", 1), ("b", 2)] aliveMsg
      = (none, [1, 2]) :=
  router_broadcast_all _ _ _ _ rfl

/-- C6: for a non-ServiceAlive message, senderMap.ProcessWRP returns the
locator parse error verbatim when the destination does not parse, the
not-handled sentinel when the parsed service has no table entry, and
otherwise exactly the matching sender's own send result, unchanged. -/
theorem router_unicast_routes (env : Nat → Message → Option GoError)
    (parse : String → Except GoError Locator)
    (tbl : List (String × Nat)) (msg : Message)
    (h : msg.type ≠ serviceAliveMessageType) :
    (∀ e, parse msg.destination = Except.error e →
      senderMapProcessWRP env parse tbl msg = (some e, []))
    ∧ (∀ d, parse msg.destination = Except.ok d → lookupA tbl d.service = none →
      senderMapProcessWRP env parse tbl msg = (some GoError.notHandled, []))
    ∧ (∀ d s, parse msg.destination = Except.ok d → lookupA tbl d.service = some s →
      senderMapProcessWRP env parse tbl msg = (env s msg, [s])) := by
  refine ⟨?_, ?_, ?_⟩
  · intro e hp
    simp [senderMapProcessWRP, h, hp]
  · intro d hp hl
    simp [senderMapProcessWRP, h, hp, hl]
  · intro d s hp hl
    simp [senderMapProcessWRP, h, hp, hl]

def msgU : Message :=
  { type := 3, destination := "x", serviceName := "", url := "", status := none }

/-- Witness for C6: a request-response message routed to the registered
service returns exactly that sender's error, unchanged. -/
theorem router_unicast_routes_witness :
    senderMapProcessWRP (fun _ _ => some (GoError.tag 9))
        (fun _ => Except.ok (Locator.mk "svc")) [("svc", 4)] msgU
      = (some (GoError.tag 9), [4]) :=
  (router_unicast_routes (fun _ _ => some (GoError.tag 9))
      (fun _ => Except.ok (Locator.mk "svc")) [("svc", 4)] msgU
      (by decide)).2.2 (Locator.mk "svc") 4 rfl (by decide)

/-! ## senderMap mutation: upsert, Remove, and the close-subscriber chain

senderMap.upsert (sendermap.go:84-125) injects into every sender it builds
a close-listener that calls sm.Remove(name) (sendermap.go:88-90), and
eventor fires close-listeners synchronously on the goroutine that closes
the sender (Sender.Close, sender.go:107-122).  Remove and the locked
section of upsert take the table's write lock (sync.RWMutex, which is not
reentrant), so a listener that runs while the same goroutine holds the
lock blocks forever.  The model makes this explicit: a World carries the
table, the write-lock state, and a heap of sender states (connectedness
plus registered close-listeners); an attempt to take the held lock on the
same call chain yields the deadlock outcome.  Recursion through listener
chains is bounded by fuel; stuck marks fuel exhaustion and never occurs in
the runs below. -/

/-- A registered close-listener: the one senderMap.upsert injects
(sm.Remove of the captured name), or any application-supplied listener,
which touches no wrpnng state. -/
inductive CloseCb where
  | removeName (name : String)
  | external (id : Nat)
deriving DecidableEq, Repr

/-- The per-sender state the close path inspects: whether sock is non-nil
and the close-listeners in registration order. -/
structure SenderSt where
  isOpen : Bool
  cbs : List CloseCb
deriving DecidableEq, Repr

/-- The state the senderMap operations act on. -/
structure World where
  tbl : List (String × Nat)
  locked : Bool
  hp : List (Nat × SenderSt)
deriving DecidableEq, Repr

/-- Lookup of a sender state by id. -/
def lookupSt : List (Nat × SenderSt) → Nat → Option SenderSt
  | [], _ => none
  | (k, st) :: rest, sid => if k = sid then some st else lookupSt rest sid

/-- Mark a sender as disconnected (sock set to nil). -/
def setClosed : List (Nat × SenderSt) → Nat → List (Nat × SenderSt)
  | [], _ => []
  | (k, st) :: rest, sid =>
    if k = sid then (k, { st with isOpen := false }) :: rest
    else (k, st) :: setClosed rest sid

/-- Mark a sender as connected (successful Dial). -/
def setOpen : List (Nat × SenderSt) → Nat → List (Nat × SenderSt)
  | [], _ => []
  | (k, st) :: rest, sid =>
    if k = sid then (k, { st with isOpen := true }) :: rest
    else (k, st) :: setOpen rest sid

/-- Go map delete. -/
def eraseA : List (String × Nat) → String → List (String × Nat)
  | [], _ => []
  | (k, v) :: rest, key =>
    if k = key then rest else (k, v) :: eraseA rest key

/-- Go map assignment: replace the entry for the key or add one. -/
def insertA : List (String × Nat) → String → Nat → List (String × Nat)
  | [], key, v => [(key, v)]
  | (k, w) :: rest, key, v =>
    if k = key then (key, v) :: rest else (k, w) :: insertA rest key v

/-- Outcome of a senderMap-side operation: normal completion, a self
deadlock on the table's write lock, or fuel exhaustion. -/
inductive Res where
  | ok (w : World)
  | deadlock (w : World)
  | stuck (w : World)
deriving DecidableEq, Repr

mutual

/-- Translation of senderMap.Remove (sendermap.go:129-140): acquire the
write lock (deadlock if this call chain already holds it), look the name
up, close the found sender and delete its entry, release the lock.  Remove
always returns a nil error, so only the state outcome is carried. -/
def smRemove : Nat → String → World → Res
  | 0, _, w => Res.stuck w
  | fuel + 1, name, w =>
    if w.locked then Res.deadlock w
    else
      let w1 : World := { w with locked := true }
      match lookupA w1.tbl name with
      | none => Res.ok { w1 with locked := false }
      | some sid =>
        match senderClose fuel sid w1 with
        | Res.ok w2 => Res.ok { w2 with tbl := eraseA w2.tbl name, locked := false }
        | r => r

/-- Translation of Sender.Close (sender.go:107-122): when the sock is
non-nil, tear it down and fire the close-listeners synchronously, in
order; otherwise do nothing.  Close always returns nil. -/
def senderClose : Nat → Nat → World → Res
  | 0, _, w => Res.stuck w
  | fuel + 1, sid, w =>
    match lookupSt w.hp sid with
    | some st =>
      if st.isOpen then fireCbs fuel st.cbs { w with hp := setClosed w.hp sid }
      else Res.ok w
    | none => Res.ok w

/-- eventor Visit over the close-listeners: sequential, synchronous. -/
def fireCbs : Nat → List CloseCb → World → Res
  | 0, _, w => Res.stuck w
  | _ + 1, [], w => Res.ok w
  | fuel + 1, cb :: rest, w =>
    match runCb fuel cb w with
    | Res.ok w1 => fireCbs fuel rest w1
    | r => r

/-- Run one close-listener: the injected one performs sm.Remove(name)
(sendermap.go:88-90); an application listener has no wrpnng effect. -/
def runCb : Nat → CloseCb → World → Res
  | 0, _, w => Res.stuck w
  | fuel + 1, CloseCb.removeName n, w => smRemove fuel n w
  | _ + 1, CloseCb.external _, w => Res.ok w

end

/-- What senderMap.upsert needs to know about the sender the factory would
build for the given options: a fresh id, the caller-supplied listeners
(the injected Remove listener is appended after them, sendermap.go:88),
whether the factory itself errors, whether Dial errors, and whether the
synthetic authorization send would fail at the transport. -/
structure NewSenderSpec where
  sid : Nat
  userCbs : List CloseCb
  factoryErr : Option GoError
  dialErr : Option GoError
  authSendFails : Bool
deriving DecidableEq, Repr

/-- Outcome of upsert and of the registration handler: the returned error
value and the final state, or a deadlock / fuel exhaustion. -/
inductive URes where
  | ok (e : Option GoError) (w : World)
  | deadlock (w : World)
  | stuck (w : World)
deriving DecidableEq, Repr

/-- The post-install tail of upsert (sendermap.go:117-124): send the
synthetic authorization message (Type Authorization, Status 200) to the
new sender outside the lock and discard its result.  A transport failure
of that send tears the new sender down inside Sender.ProcessWRP
(sender.go:154-160), firing its close-listeners. -/
def authSend (fuel : Nat) (sp : NewSenderSpec) (w : World) : URes :=
  if sp.authSendFails then
    match senderClose fuel sp.sid w with
    | Res.ok w1 => URes.ok none w1
    | Res.deadlock w1 => URes.deadlock w1
    | Res.stuck w1 => URes.stuck w1
  else URes.ok none w

/-- Translation of senderMap.upsert (sendermap.go:84-125): append the
injected Remove close-listener to the options, build the sender (a factory
error is returned with nothing touched), Dial it (on failure Close the
half-built sender — a no-op fire-wise, it was never connected — and return
the error with the table untouched), then under the write lock Close any
existing entry for the name and install the new sender, and finally send
the authorization message.  Upsert returns nil on the success path. -/
def smUpsert (fuel : Nat) (name : String) (sp : NewSenderSpec) (w : World) : URes :=
  match sp.factoryErr with
  | some e => URes.ok (some e) w
  | none =>
    let w1 : World :=
      { w with hp := (sp.sid, SenderSt.mk false (sp.userCbs ++ [CloseCb.removeName name])) :: w.hp }
    match sp.dialErr with
    | some e =>
      match senderClose fuel sp.sid w1 with
      | Res.ok w2 => URes.ok (some e) w2
      | Res.deadlock w2 => URes.deadlock w2
      | Res.stuck w2 => URes.stuck w2
    | none =>
      let w2 : World := { w1 with hp := setOpen w1.hp sp.sid }
      if w2.locked then URes.deadlock w2
      else
        let w3 : World := { w2 with locked := true }
        match lookupA w3.tbl name with
        | some existing =>
          match senderClose fuel existing w3 with
          | Res.ok w4 =>
            authSend fuel sp { w4 with tbl := insertA w4.tbl name sp.sid, locked := false }
          | Res.deadlock w4 => URes.deadlock w4
          | Res.stuck w4 => URes.stuck w4
        | none =>
          authSend fuel sp { w3 with tbl := insertA w3.tbl name sp.sid, locked := false }

/-- Translation of Server.handleRegisterMsg (server.go:125-136): anything
that is not a registration message is not handled; a registration message
missing the service name or the connect URL is an invalid message; both
present, senders.Upsert runs for that name with the URL appended to the
sender options — spOf gives the sender the factory would build for each
URL. -/
def handleRegisterMsg (fuel : Nat) (spOf : String → NewSenderSpec)
    (w : World) (msg : Message) : URes :=
  if msg.type ≠ serviceRegistrationMessageType then
    URes.ok (some GoError.notHandled) w
  else if msg.serviceName = "" ∨ msg.url = "" then
    URes.ok (some GoError.invalidMsg) w
  else smUpsert fuel msg.serviceName (spOf msg.url) w

/-- C7: when senderMap.upsert fails to build or to dial the new sender, it
returns that error and leaves the routing table (and the lock) exactly as
they were: a factory error touches nothing at all, and a dial error leaves
only the half-built sender behind — created with the injected Remove
listener appended, still unconnected after its no-op Close — while the
table keeps whatever entry, or absence of entry, the name had. -/
theorem router_upsert_failure_leaves_table (fuel : Nat) (name : String)
    (sp : NewSenderSpec) (w : World) :
    (∀ e, sp.factoryErr = some e → smUpsert fuel name sp w = URes.ok (some e) w)
    ∧ (∀ e, sp.factoryErr = none → sp.dialErr = some e →
      smUpsert (fuel + 1) name sp w
        = URes.ok (some e)
            { w with hp :=
                (sp.sid, SenderSt.mk false (sp.userCbs ++ [CloseCb.removeName name]))
                  :: w.hp }) := by
  constructor
  · intro e h
    simp [smUpsert, h]
  · intro e h1 h2
    simp [smUpsert, h1, h2, senderClose, lookupSt]

def wC7 : World :=
  { tbl := [("a", 1)], locked := false,
    hp := [(1, SenderSt.mk true [CloseCb.removeName "a"])] }

def spC7 : NewSenderSpec :=
  { sid := 7, userCbs := [CloseCb.external 0], factoryErr := none,
    dialErr := some (GoError.tag 2), authSendFails := false }

/-- Witness for C7: upsert of name b over a table holding only a, with a
sender that dials with error tag 2: the error comes back, the table still
holds exactly the entry for a, and the half-built sender 7 sits closed in
the heap. -/
theorem router_upsert_failure_leaves_table_witness :
    smUpsert 3 "b" spC7 wC7
      = URes.ok (some (GoError.tag 2))
          { tbl := [("a", 1)], locked := false,
            hp := [(7, SenderSt.mk false [CloseCb.external 0, CloseCb.removeName "b"]),
                   (1, SenderSt.mk true [CloseCb.removeName "a"])] } :=
  (router_upsert_failure_leaves_table 2 "b" spC7 wC7).2 (GoError.tag 2) rfl rfl

/-- C9: the Bridge's registration handler returns the not-handled sentinel
for every non-registration message; for a registration message with an
empty service name or an empty connect URL it returns the invalid-message
error and touches nothing (no entry is added to the Router); with both
fields non-empty it is exactly senderMap.upsert for that service name with
the sender built from that URL, whose result it returns. -/
theorem bridge_register_handler_cases (fuel : Nat)
    (spOf : String → NewSenderSpec) (w : World) (msg : Message) :
    (msg.type ≠ serviceRegistrationMessageType →
      handleRegisterMsg fuel spOf w msg = URes.ok (some GoError.notHandled) w)
    ∧ (msg.type = serviceRegistrationMessageType →
        msg.serviceName = "" ∨ msg.url = "" →
      handleRegisterMsg fuel spOf w msg = URes.ok (some GoError.invalidMsg) w)
    ∧ (msg.type = serviceRegistrationMessageType →
        msg.serviceName ≠ "" → msg.url ≠ "" →
      handleRegisterMsg fuel spOf w msg
        = smUpsert fuel msg.serviceName (spOf msg.url) w) := by
  refine ⟨?_, ?_, ?_⟩
  · intro h
    simp [handleRegisterMsg, h]
  · intro h1 h2
    simp [handleRegisterMsg, h1, h2]
  · intro h1 h2 h3
    simp [handleRegisterMsg, h1, h2, h3]

def msgRegEmptyURL : Message :=
  { type := serviceRegistrationMessageType, destination := "",
    serviceName := "svc", url := "", status := none }

def wC9 : World := { tbl := [], locked := false, hp := [] }

/-- Witness for C9: a registration message with an empty connect URL gets
the invalid-message error and the Router table stays empty. -/
theorem bridge_register_handler_cases_witness :
    handleRegisterMsg 5
        (fun _ => NewSenderSpec.mk 3 [] none none false) wC9 msgRegEmptyURL
      = URes.ok (some GoError.invalidMsg) wC9 :=
  (bridge_register_handler_cases 5
      (fun _ => NewSenderSpec.mk 3 [] none none false) wC9 msgRegEmptyURL).2.1
    rfl (Or.inr rfl)

/-! ## C2: the stale close-subscriber and the newer entry

Scenario from the claim: sender 1 was registered for name A, then a later
upsert installed sender 2 for A (so the table maps A to 2 and sender 1 is
already torn down), and now sender 1's pending closure notification — the
injected close-subscriber, which is sm.Remove of the captured name A
(sendermap.go:88-90) — fires.  Remove looks the name up without comparing
the found sender to the one whose closure triggered it, so it proceeds
against the newer sender 2: it calls Close on sender 2 (tearing down the
live connection), whose own injected close-subscriber synchronously calls
sm.Remove again and blocks forever on the write lock this call chain
already holds.  The newer entry is not left intact as the claim requires:
its connection is destroyed and the table is left permanently locked. -/
def c2World : World :=
  { tbl := [("A", 2)], locked := false,
    hp := [(2, SenderSt.mk true [CloseCb.removeName "A"]),
           (1, SenderSt.mk false [CloseCb.removeName "A"])] }

/-- C2 at the failing input: firing the close-subscriber that upsert
injected into the older sender 1, while the table's current entry for A is
the newer, live sender 2, closes sender 2's connection and then deadlocks
re-acquiring the table lock — there is no same-instance guard anywhere on
that path. -/
theorem stale_close_subscriber_hits_newer_entry :
    runCb 9 (CloseCb.removeName "A") c2World
      = Res.deadlock
          { tbl := [("A", 2)], locked := true,
            hp := [(2, SenderSt.mk false [CloseCb.removeName "A"]),
                   (1, SenderSt.mk false [CloseCb.removeName "A"])] } := by decide

/-! ## C8: upsert over an existing live entry

When upsert finds an existing live entry for the name it calls Close on it
while holding the table's write lock (sendermap.go:103-115).  Sender.Close
fires the close-listeners synchronously, and the listener upsert itself
injected into that old sender calls sm.Remove, which tries to take the
same write lock: the goroutine deadlocks.  The old sender's socket is torn
down, but the new sender is never installed, the authorization message is
never sent, and the table stays permanently locked with the old entry in
place. -/
def c8World : World :=
  { tbl := [("A", 1)], locked := false,
    hp := [(1, SenderSt.mk true [CloseCb.removeName "A"])] }

def c8Spec : NewSenderSpec :=
  { sid := 2, userCbs := [], factoryErr := none, dialErr := none,
    authSendFails := false }

/-- C8 at the failing input: upsert of name A over a table whose entry for
A is the live sender 1, with a new sender 2 that builds and dials cleanly,
deadlocks inside the old entry's Close instead of completing: the result
state still maps A to the old sender 1 (now torn down), sender 2 is dialed
but never installed, and the write lock is never released. -/
theorem upsert_existing_live_entry_deadlocks :
    smUpsert 9 "A" c8Spec c8World
      = URes.deadlock
          { tbl := [("A", 1)], locked := true,
            hp := [(2, SenderSt.mk true [CloseCb.removeName "A"]),
                   (1, SenderSt.mk false [CloseCb.removeName "A"])] } := by decide
